import Mathlib

/-!
Verification of the drive-frontend client view-model (src/unnamed/part_000).

The file shallowly embeds the pure state-bookkeeping logic of the React
component `App`: the `formatBytes` helper, the fetch-result sort, the
breadcrumb navigation (`navigateToFolder`), the logout handler, the
fetch error handling, and the success/confirmation structure of the
mutation handlers.  Asynchronous requests are modelled as atomic
transitions on an explicit `State`; toast notifications are recorded as a
list of message strings.  JavaScript numbers are modelled as exact
rationals (with an explicit NaN constructor); `localeCompare` is modelled
as the standard lexicographic string order.
-/

namespace Drive

/-- Tag distinguishing the two kinds of listed items (the `type` field the
client attaches when merging the two fetch results). -/
inductive ItemType
  | folder
  | file
deriving DecidableEq, Repr

/-- An item as held in the `items` state: backend record plus the `type` tag. -/
structure Item where
  id : String
  name : String
  type : ItemType
deriving DecidableEq, Repr

/-- A raw record returned by the backend list endpoints, before tagging. -/
structure RawItem where
  id : String
  name : String
deriving DecidableEq, Repr

/-- The authenticated user record (spec section 3, "Session"). -/
structure User where
  id : String
  name : String
  email : String
deriving DecidableEq, Repr

/-- One breadcrumb entry: `id = none` is the root sentinel. -/
structure Crumb where
  id : Option String
  name : String
deriving DecidableEq, Repr

/-- The root breadcrumb entry, `\x7b id: null, name: 'Root' \x7d` (line 71). -/
def rootCrumb : Crumb := { id := none, name := "Root" }

/-- The component state relevant to the claims: `user`, `items`,
`isLoading`, `currentFolderId`, `breadcrumbPath` (lines 60-71), plus the
list of toast messages emitted so far. -/
structure State where
  user : Option User
  items : List Item
  isLoading : Bool
  currentFolderId : Option String
  breadcrumbPath : List Crumb
  toasts : List String
deriving DecidableEq, Repr

/-- The initial component state (lines 60-71), with the session either
restored (`some u`) or absent. -/
def initState (u : Option User) : State :=
  { user := u
    items := []
    isLoading := false
    currentFolderId := none
    breadcrumbPath := [rootCrumb]
    toasts := [] }

/- ---------------------------------------------------------------
   formatBytes (lines 17-26)
   --------------------------------------------------------------- -/

/-- The `sizes` array of `formatBytes` (line 21). -/
def sizes : List String := ["Bytes", "KB", "MB", "GB", "TB"]

/-- A JavaScript number after numeric coercion: either NaN or an exact
rational value. -/
inductive JsNum
  | nan
  | num (q : ℚ)
deriving DecidableEq, Repr

/-- Truthiness of `+bytes` (line 18): NaN and 0 are falsy, every other
number is truthy. -/
def jsTruthy : JsNum → Bool
  | .nan => false
  | .num q => decide (q ≠ 0)

/-- Embeds `formatBytes` (lines 17-26) as the pair (number part, size
suffix) of the returned string, which the source renders as
`number ++ " " ++ suffix`.  `Math.floor(Math.log bytes / Math.log 1024)`
is modelled exactly as `Int.log 1024` for positive input; for negative
input `Math.log` is NaN, the NaN index propagates, and `sizes[NaN]` is
`undefined`, rendered here as the string "undefined".  `sizes[index]`
for an integer index outside `0..4` is likewise `undefined`.  The
`toFixed(decimals)`/`parseFloat` decimal rounding of the number part is
not modelled (the quotient is kept exact); no claim concerns it. -/
def formatBytesParts (bytes : JsNum) : String × String :=
  if jsTruthy bytes = false then ("0", "Bytes")
  else
    match bytes with
    | .nan => ("0", "Bytes")
    | .num q =>
      if q < 0 then ("NaN", "undefined")
      else
        let i : ℤ := Int.log 1024 q
        let index : ℤ := min i 4
        let mantissa : ℚ := q / (1024 : ℚ) ^ index
        if 0 ≤ index ∧ index < (sizes.length : ℤ) then
          (toString mantissa, sizes.getD index.toNat "undefined")
        else
          (toString mantissa, "undefined")

/-- The full string returned by `formatBytes` (line 25). -/
def formatBytes (bytes : JsNum) : String :=
  (formatBytesParts bytes).1 ++ " " ++ (formatBytesParts bytes).2

/- ---------------------------------------------------------------
   fetchItems: tagging and sorting (lines 98-128)
   --------------------------------------------------------------- -/

/-- Model of `a.name.localeCompare(b.name)` (line 126): negative, zero or
positive according to the lexicographic order on strings. -/
def localeCompareModel (a b : String) : Int :=
  if a < b then -1 else if a = b then 0 else 1

/-- The sort comparator of lines 121-127: folders before files, otherwise
compare names. -/
def itemCompare (a b : Item) : Int :=
  if a.type = ItemType.folder ∧ b.type = ItemType.file then -1
  else if a.type = ItemType.file ∧ b.type = ItemType.folder then 1
  else localeCompareModel a.name b.name

/-- The "less or equal" reading of the comparator, used to run the sort. -/
def itemLE (a b : Item) : Bool := decide (itemCompare a b ≤ 0)

/-- `combinedItems.sort(comparator)` (lines 120-127), modelled as a merge
sort by the comparator. -/
def sortItems (l : List Item) : List Item := l.mergeSort itemLE

/-- Tagging of fetched records with their type (lines 99 and 113):
`map(f => (\x7b ...f, type \x7d))`. -/
def tagItems (t : ItemType) (l : List RawItem) : List Item :=
  l.map fun r => { id := r.id, name := r.name, type := t }

/- ---------------------------------------------------------------
   Navigation (lines 149-168)
   --------------------------------------------------------------- -/

/-- Embeds the non-null branch of the `setBreadcrumbPath` updater (lines
157-164): `findIndex(f => f.id === folderId)`; if found, `slice(0,
existingIndex + 1)` (the prefix ending at the first entry with that id),
otherwise append `\x7b id: folderId, name: folderName \x7d`. -/
def navigateUpdatePath (folderId : String) (folderName : String) : List Crumb → List Crumb
  | [] => [{ id := some folderId, name := folderName }]
  | f :: rest =>
    if f.id = some folderId then [f]
    else f :: navigateUpdatePath folderId folderName rest

/-- The whole breadcrumb update of `navigateToFolder` (lines 154-165),
including the `folderId === null` reset to the root-only path. -/
def navPathStep (p : List Crumb) (nav : Option String × String) : List Crumb :=
  match nav.1 with
  | none => [rootCrumb]
  | some fid => navigateUpdatePath fid nav.2 p

/-- Embeds `navigateToFolder` (lines 149-168): set `currentFolderId`,
update the breadcrumb path.  The `fetchItems` call it then issues is a
separate asynchronous transition (`fetchItemsOk` / `fetchItemsErr`). -/
def navigateToFolder (folderId : Option String) (folderName : String) (s : State) : State :=
  { s with
    currentFolderId := folderId
    breadcrumbPath := navPathStep s.breadcrumbPath (folderId, folderName) }

/- ---------------------------------------------------------------
   Session (lines 193-205, 237-249)
   --------------------------------------------------------------- -/

/-- Embeds the `!user` branch of the cleanup `useEffect` (lines 200-204):
once the user is null, clear the items, reset the breadcrumb path and
the current folder. -/
def userCleanupEffect (s : State) : State :=
  if s.user = none then
    { s with items := [], breadcrumbPath := [rootCrumb], currentFolderId := none }
  else s

/-- Embeds `handleLogout` (lines 237-249) followed by the cleanup effect
it triggers: whatever the remote call did, `finally` sets the user to
null.  `remoteOk` is the outcome of the POST; with `showToast = false`
the result does not depend on it. -/
def handleLogout (remoteOk : Bool) (showToast : Bool) (s : State) : State :=
  let msgs : List String :=
    if showToast then
      if remoteOk then ["Logged out successfully!"]
      else ["Logout failed on server, logged out locally."]
    else []
  userCleanupEffect { s with user := none, toasts := s.toasts ++ msgs }

/- ---------------------------------------------------------------
   fetchItems as a state transition (lines 82-145)
   --------------------------------------------------------------- -/

/-- Embeds a successful `fetchItems` round trip (lines 89-128 and the
`finally` of line 143): tag the two result lists, merge, sort, store. -/
def fetchItemsOk (folders files : List RawItem) (s : State) : State :=
  { s with
    items := sortItems (tagItems ItemType.folder folders ++ tagItems ItemType.file files)
    isLoading := false }

/-- Embeds a failed `fetchItems` round trip (lines 130-144) for the
request issued with the given `folderId`: always an error toast; on 401,
`handleLogout(false)` plus the session-expired toast; on 404 with a
non-null `folderId`, a warning toast and `navigateToFolder(null, 'Root')`;
`finally` clears the loading flag.  The nested `fetchItems(null)` issued
by that navigation is again a separate transition. -/
def fetchItemsErr (status : Nat) (folderId : Option String) (s : State) : State :=
  let s1 : State := { s with toasts := s.toasts ++ ["Failed to fetch items."] }
  let s2 : State :=
    if status = 401 then
      let s1' := handleLogout true false s1
      { s1' with toasts := s1'.toasts ++ ["Session expired. Please log in again."] }
    else s1
  let s3 : State :=
    if status = 404 ∧ folderId ≠ none then
      navigateToFolder none "Root"
        { s2 with toasts := s2.toasts ++ ["Folder not found, returning to root."] }
    else s2
  { s3 with isLoading := false }

/- ---------------------------------------------------------------
   The reachable-state machine
   --------------------------------------------------------------- -/

/-- The transitions relevant to the reachability claims: navigation,
logout (with either remote outcome), and fetch completion (success or
error). -/
inductive Action
  | navigate (folderId : Option String) (folderName : String)
  | logout (remoteOk : Bool) (showToast : Bool)
  | fetchOk (folders files : List RawItem)
  | fetchErr (status : Nat) (folderId : Option String)
deriving DecidableEq, Repr

/-- One transition of the client state machine. -/
def step (s : State) (a : Action) : State :=
  match a with
  | .navigate fid fname => navigateToFolder fid fname s
  | .logout ok showT => handleLogout ok showT s
  | .fetchOk folders files => fetchItemsOk folders files s
  | .fetchErr status fid => fetchItemsErr status fid s

/-- Run a sequence of transitions from the initial state. -/
def run (u : Option User) (acts : List Action) : State :=
  acts.foldl step (initState u)

/-- Breadcrumb evolution under navigation alone, starting from the
root-only path (the state `breadcrumbPath` restricted to `navigate`
transitions). -/
def runNav (navs : List (Option String × String)) : List Crumb :=
  navs.foldl navPathStep [rootCrumb]

/- ---------------------------------------------------------------
   Mutation handlers (lines 253-356)
   --------------------------------------------------------------- -/

/-- Result of running one mutation handler continuation: the new state,
and the folder id passed to `fetchItems` if the handler invoked it
(`none` when no refetch was issued). -/
structure MutationOutcome where
  state : State
  refetch : Option (Option String)
deriving DecidableEq, Repr

/-- The identifiers in scope in the success branch of `handleFileUpload`
(lines 253-268) that hold a folder id.  Line 268 reads the identifier
`targetFolderIdnull`, which is bound nowhere: in JavaScript (module
code, hence strict mode) evaluating it throws a ReferenceError. -/
def handleFileUploadScopeLookup (currentFolderId : Option String) (x : String) :
    Option (Option String) :=
  if x = "targetFolderId" then some currentFolderId
  else if x = "currentFolderId" then some currentFolderId
  else none

/-- Embeds the continuation of `handleFileUpload` after the POST succeeds
(lines 265-273): success toast, clear the selected file, then evaluate
`fetchItems(targetFolderIdnull)` (line 268).  The identifier lookup
fails, the ReferenceError is caught by the `catch` block (the error has
no `response`, so the generic message is shown) and `fetchItems` is
never invoked. -/
def handleFileUploadSuccess (s : State) : MutationOutcome :=
  let sOk : State := { s with toasts := s.toasts ++ ["File uploaded."] }
  match handleFileUploadScopeLookup s.currentFolderId "targetFolderIdnull" with
  | some fid => { state := sOk, refetch := some fid }
  | none =>
    { state := { sOk with toasts := sOk.toasts ++ ["File upload failed."], isLoading := false }
      refetch := none }

/-- Embeds the continuation of `createFolder` after the POST succeeds
(lines 288-290): success toast, clear the name field (not modelled),
`fetchItems(targetParentId)` with the parent captured at dispatch
(line 281), which is the folder open when the mutation started. -/
def createFolderSuccess (s : State) : MutationOutcome :=
  { state := { s with toasts := s.toasts ++ ["Folder created."] }
    refetch := some s.currentFolderId }

/-- Embeds the continuation of `handleDelete` after the DELETE succeeds
(lines 312-313): success toast, `fetchItems(folderToRefetch)` with the
folder captured at dispatch (line 308). -/
def handleDeleteSuccess (item : Item) (s : State) : MutationOutcome :=
  let itemTypeName := if item.type = ItemType.folder then "Folder" else "File"
  { state := { s with toasts := s.toasts ++ [itemTypeName ++ " deleted."] }
    refetch := some s.currentFolderId }

/-- Embeds the continuation of `handleActualFileUpdate` after the PUT
succeeds (lines 346-347): success toast (server message or fallback),
`fetchItems(folderToRefetch)` with the folder captured at dispatch
(line 340). -/
def handleActualFileUpdateSuccess (serverMsg : Option String) (s : State) : MutationOutcome :=
  { state := { s with toasts := s.toasts ++ [serverMsg.getD "File updated successfully!"] }
    refetch := some s.currentFolderId }

/-- Embeds the synchronous part of `handleDelete` (lines 298-320): bail
out while loading; otherwise dispatch the DELETE request to
`/api/(endpoint)/(item.id)` only if `window.confirm` was accepted.
Returns the dispatched request (endpoint segment and item id), if any,
together with the state. -/
def handleDelete (item : Item) (confirmed : Bool) (s : State) :
    Option (String × String) × State :=
  if s.isLoading then (none, s)
  else if confirmed then
    (some ((if item.type = ItemType.folder then "folders" else "files"), item.id),
      { s with isLoading := true })
  else (none, s)

/- ---------------------------------------------------------------
   Lemmas and theorems: formatBytes
   --------------------------------------------------------------- -/

lemma sizes_getD_mem : ∀ n : ℕ, n < 5 → sizes.getD n "undefined" ∈ sizes := by decide

/-- C10 (amended): an input coercing to 0 or NaN yields the string
"0 Bytes"; for every numeric input of at least 1 the unit index
`min (floor (log1024 q)) 4` lies in `0..4`, so the size suffix produced
by `formatBytes` is one of the five entries of `sizes` and the array
access stays in bounds.  (For positive inputs below 1 the index is
negative and out of bounds; see the counterexample.) -/
theorem formatBytes_zero_nan_and_suffix :
    formatBytes JsNum.nan = "0 Bytes" ∧ formatBytes (JsNum.num 0) = "0 Bytes" ∧
      ∀ q : ℚ, 1 ≤ q → (formatBytesParts (JsNum.num q)).2 ∈ sizes := by
  refine ⟨rfl, rfl, ?_⟩
  intro q hq
  have hq0 : (0 : ℚ) < q := lt_of_lt_of_le one_pos hq
  have hne : q ≠ 0 := ne_of_gt hq0
  have hnneg : ¬ q < 0 := not_lt.mpr hq0.le
  have ht : jsTruthy (JsNum.num q) = true := by simp [jsTruthy, hne]
  have hlog : 0 ≤ Int.log 1024 q := by
    rw [← Int.zpow_le_iff_le_log (by norm_num) hq0]
    simpa using hq
  have hidx0 : 0 ≤ min (Int.log 1024 q) 4 := le_min hlog (by norm_num)
  have hidx4 : min (Int.log 1024 q) 4 ≤ 4 := min_le_right _ _
  simp only [formatBytesParts, ht, Bool.true_eq_false, if_false]
  have hcond : 0 ≤ min (Int.log 1024 q) 4 ∧
      min (Int.log 1024 q) 4 < (sizes.length : ℤ) := by
    refine ⟨hidx0, ?_⟩
    have : (sizes.length : ℤ) = 5 := by simp [sizes]
    omega
  rw [if_neg hnneg, if_pos hcond]
  have hn : (min (Int.log 1024 q) 4).toNat < 5 := by omega
  exact sizes_getD_mem _ hn

/-- Witness for C10 at the concrete input 5: the size suffix is one of
the five unit names. -/
theorem formatBytes_zero_nan_and_suffix_witness :
    (formatBytesParts (JsNum.num 5)).2 ∈ sizes :=
  formatBytes_zero_nan_and_suffix.2.2 5 (by norm_num)

/-- C10 counterexample: the input 1/2 is a positive number, yet the
computed unit index is negative (`min` only clamps from above), the
array access `sizes[-1]` is out of bounds, and the size suffix is the
JavaScript `undefined` rather than one of the five unit names. -/
theorem formatBytes_half_oob :
    (formatBytesParts (JsNum.num (1 / 2))).2 ∉ sizes := by
  have hne : (1 / 2 : ℚ) ≠ 0 := by norm_num
  have hnneg : ¬ (1 / 2 : ℚ) < 0 := by norm_num
  have ht : jsTruthy (JsNum.num (1 / 2)) = true := by simp [jsTruthy]
  have hlog : Int.log 1024 ((1 : ℚ) / 2) < 0 := by
    rw [← Int.lt_zpow_iff_log_lt (by norm_num) (by norm_num)]
    norm_num
  have hidxneg : min (Int.log 1024 ((1 : ℚ) / 2)) 4 < 0 :=
    lt_of_le_of_lt (min_le_left _ _) hlog
  have hcond : ¬ (0 ≤ min (Int.log 1024 ((1 : ℚ) / 2)) 4 ∧
      min (Int.log 1024 ((1 : ℚ) / 2)) 4 < (sizes.length : ℤ)) := by
    intro h
    omega
  simp only [formatBytesParts, ht, Bool.true_eq_false, if_false, hnneg]
  rw [if_neg hcond]
  decide

/- ---------------------------------------------------------------
   Lemmas and theorems: the fetch-result sort
   --------------------------------------------------------------- -/

lemma localeCompareModel_le_zero (a b : String) : localeCompareModel a b ≤ 0 ↔ a ≤ b := by
  unfold localeCompareModel
  by_cases hlt : a < b
  · simp [hlt, hlt.le]
  · by_cases heq : a = b
    · simp [hlt, heq]
    · have hnle : ¬ a ≤ b := fun hle => hlt (lt_of_le_of_ne hle heq)
      simp [hlt, heq, hnle]

lemma itemLE_iff (a b : Item) :
    itemLE a b = true ↔
      (a.type = ItemType.folder ∧ b.type = ItemType.file) ∨
        (a.type = b.type ∧ a.name ≤ b.name) := by
  unfold itemLE itemCompare
  cases ha : a.type <;> cases hb : b.type <;>
    simp [ha, hb, localeCompareModel_le_zero]

lemma itemLE_total : ∀ a b : Item, (itemLE a b || itemLE b a) = true := by
  intro a b
  rw [Bool.or_eq_true, itemLE_iff, itemLE_iff]
  cases ha : a.type <;> cases hb : b.type
  · rcases le_total a.name b.name with h | h
    · exact Or.inl (Or.inr ⟨rfl, h⟩)
    · exact Or.inr (Or.inr ⟨rfl, h⟩)
  · exact Or.inl (Or.inl ⟨rfl, rfl⟩)
  · exact Or.inr (Or.inl ⟨rfl, rfl⟩)
  · rcases le_total a.name b.name with h | h
    · exact Or.inl (Or.inr ⟨rfl, h⟩)
    · exact Or.inr (Or.inr ⟨rfl, h⟩)

lemma itemLE_trans :
    ∀ a b c : Item, itemLE a b = true → itemLE b c = true → itemLE a c = true := by
  intro a b c hab hbc
  rw [itemLE_iff] at hab hbc ⊢
  rcases hab with ⟨haf, hbf⟩ | ⟨habe, hable⟩
  · rcases hbc with ⟨hbf2, hcf⟩ | ⟨hbce, hbcle⟩
    · rw [hbf] at hbf2; exact ItemType.noConfusion hbf2
    · exact Or.inl ⟨haf, by rw [← hbce]; exact hbf⟩
  · rcases hbc with ⟨hbf2, hcf⟩ | ⟨hbce, hbcle⟩
    · exact Or.inl ⟨by rw [habe]; exact hbf2, hcf⟩
    · exact Or.inr ⟨habe.trans hbce, le_trans hable hbcle⟩

/-- C3: the item list produced by a successful fetch is ordered so that
no file precedes a folder (every folder comes before every file), and
two items of the same kind appear in ascending name order. -/
theorem fetchItems_sort_order :
    ∀ (folders files : List RawItem) (s : State),
      ((fetchItemsOk folders files s).items).Pairwise
        (fun a b =>
          (a.type = ItemType.file → b.type = ItemType.file) ∧
            (a.type = b.type → a.name ≤ b.name)) := by
  intro folders files s
  have h := @List.sorted_mergeSort Item itemLE itemLE_trans itemLE_total
    (tagItems ItemType.folder folders ++ tagItems ItemType.file files)
  have hitems : (fetchItemsOk folders files s).items =
      (tagItems ItemType.folder folders ++ tagItems ItemType.file files).mergeSort itemLE := rfl
  rw [hitems]
  refine h.imp ?_
  intro a b hab
  rw [itemLE_iff] at hab
  constructor
  · intro haf
    rcases hab with ⟨h1, _⟩ | ⟨h1, _⟩
    · rw [haf] at h1; exact ItemType.noConfusion h1
    · rw [← h1]; exact haf
  · intro heq
    rcases hab with ⟨h1, h2⟩ | ⟨_, h2⟩
    · exfalso; rw [h1, h2] at heq; exact ItemType.noConfusion heq
    · exact h2

/- ---------------------------------------------------------------
   Lemmas: breadcrumb navigation
   --------------------------------------------------------------- -/

lemma navigateUpdatePath_ne_nil (fid fname : String) (p : List Crumb) :
    navigateUpdatePath fid fname p ≠ [] := by
  induction p with
  | nil => simp [navigateUpdatePath]
  | cons f rest ih =>
    simp only [navigateUpdatePath]
    split <;> simp

lemma navigateUpdatePath_getLast (fid fname : String) (p : List Crumb) :
    ((navigateUpdatePath fid fname p).getLast?).map Crumb.id = some (some fid) := by
  induction p with
  | nil => simp [navigateUpdatePath]
  | cons f rest ih =>
    simp only [navigateUpdatePath]
    split
    · rename_i h
      simp [h]
    · cases hrec : navigateUpdatePath fid fname rest with
      | nil => exact absurd hrec (navigateUpdatePath_ne_nil fid fname rest)
      | cons x xs =>
        rw [hrec] at ih
        rw [List.getLast?_cons_cons]
        exact ih

lemma navigateUpdatePath_of_not_mem (fid fname : String) (p : List Crumb)
    (h : some fid ∉ p.map Crumb.id) :
    navigateUpdatePath fid fname p = p ++ [{ id := some fid, name := fname }] := by
  induction p with
  | nil => rfl
  | cons f rest ih =>
    simp only [List.map_cons, List.mem_cons] at h
    push_neg at h
    obtain ⟨h1, h2⟩ := h
    simp only [navigateUpdatePath]
    rw [if_neg fun he => h1 he.symm]
    rw [ih h2, List.cons_append]

lemma navigateUpdatePath_isPrefixOf (fid fname : String) (p : List Crumb)
    (h : some fid ∈ p.map Crumb.id) :
    navigateUpdatePath fid fname p <+: p := by
  induction p with
  | nil => simp at h
  | cons f rest ih =>
    simp only [navigateUpdatePath]
    by_cases hf : f.id = some fid
    · rw [if_pos hf]
      exact ⟨rest, rfl⟩
    · rw [if_neg hf]
      have hmem : some fid ∈ rest.map Crumb.id := by
        simp only [List.map_cons, List.mem_cons] at h
        rcases h with h | h
        · exact absurd h.symm hf
        · exact h
      obtain ⟨t, ht⟩ := ih hmem
      exact ⟨t, by rw [List.cons_append, ht]⟩

lemma navigateUpdatePath_dropLast_ne (fid fname : String) (p : List Crumb) :
    ∀ c ∈ (navigateUpdatePath fid fname p).dropLast, c.id ≠ some fid := by
  induction p with
  | nil => simp [navigateUpdatePath]
  | cons f rest ih =>
    simp only [navigateUpdatePath]
    by_cases hf : f.id = some fid
    · rw [if_pos hf]; simp
    · rw [if_neg hf]
      cases hrec : navigateUpdatePath fid fname rest with
      | nil => exact absurd hrec (navigateUpdatePath_ne_nil fid fname rest)
      | cons x xs =>
        rw [hrec] at ih
        intro c hc
        rw [List.dropLast_cons₂] at hc
        rcases List.mem_cons.mp hc with hc | hc
        · rw [hc]; exact hf
        · exact ih c hc

lemma navigateUpdatePath_mem (fid fname : String) (p : List Crumb) :
    ∀ c ∈ navigateUpdatePath fid fname p,
      c ∈ p ∨ c = { id := some fid, name := fname } := by
  induction p with
  | nil =>
    intro c hc
    simp [navigateUpdatePath] at hc
    exact Or.inr hc
  | cons f rest ih =>
    intro c hc
    simp only [navigateUpdatePath] at hc
    by_cases hf : f.id = some fid
    · rw [if_pos hf] at hc
      simp at hc
      exact Or.inl (by simp [hc])
    · rw [if_neg hf] at hc
      rcases List.mem_cons.mp hc with hc | hc
      · exact Or.inl (by simp [hc])
      · rcases ih c hc with h | h
        · exact Or.inl (List.mem_cons_of_mem f h)
        · exact Or.inr h

lemma navigateUpdatePath_pairwise (fid fname : String) (p : List Crumb)
    (h : p.Pairwise fun a b => a.id ≠ b.id) :
    (navigateUpdatePath fid fname p).Pairwise fun a b => a.id ≠ b.id := by
  induction p with
  | nil => simp [navigateUpdatePath]
  | cons f rest ih =>
    rw [List.pairwise_cons] at h
    obtain ⟨hfAll, hrest⟩ := h
    simp only [navigateUpdatePath]
    by_cases hf : f.id = some fid
    · rw [if_pos hf]; simp
    · rw [if_neg hf]
      rw [List.pairwise_cons]
      refine ⟨?_, ih hrest⟩
      intro c hc
      rcases navigateUpdatePath_mem fid fname rest c hc with h | h
      · exact hfAll c h
      · rw [h]; exact hf

lemma navPathStep_pairwise (p : List Crumb) (nav : Option String × String)
    (h : p.Pairwise fun a b => a.id ≠ b.id) :
    (navPathStep p nav).Pairwise fun a b => a.id ≠ b.id := by
  rcases nav with ⟨fid, fname⟩
  cases fid with
  | none => simp [navPathStep]
  | some f => exact navigateUpdatePath_pairwise f fname p h

/- ---------------------------------------------------------------
   Example data for witnesses and counterexamples
   --------------------------------------------------------------- -/

/-- A concrete user record. -/
def exUser : User := { id := "u1", name := "Uma", email := "uma@example.com" }

/-- A concrete file item. -/
def exItem : Item := { id := "i1", name := "doc.txt", type := ItemType.file }

/-- A concrete state with the folder "a" open and the breadcrumb
Root / A. -/
def exState : State :=
  { user := some exUser
    items := []
    isLoading := false
    currentFolderId := some "a"
    breadcrumbPath := [rootCrumb, { id := some "a", name := "A" }]
    toasts := [] }

/- ---------------------------------------------------------------
   Claim theorems
   --------------------------------------------------------------- -/

/-- C2: breadcrumb navigation.  Navigating to an id already present in
the path truncates the path to the prefix ending exactly at the entry
with that id (the last entry carries the id and no earlier entry does);
navigating to an id not in the path appends the new entry; navigating
with a null id resets the path to the single root entry. -/
theorem navigate_breadcrumb_spec :
    ∀ (s : State) (fid fname : String),
      (some fid ∈ s.breadcrumbPath.map Crumb.id →
        (navigateToFolder (some fid) fname s).breadcrumbPath <+: s.breadcrumbPath ∧
          (((navigateToFolder (some fid) fname s).breadcrumbPath).getLast?).map Crumb.id =
            some (some fid) ∧
          ∀ c ∈ ((navigateToFolder (some fid) fname s).breadcrumbPath).dropLast,
            c.id ≠ some fid) ∧
        (some fid ∉ s.breadcrumbPath.map Crumb.id →
          (navigateToFolder (some fid) fname s).breadcrumbPath =
            s.breadcrumbPath ++ [{ id := some fid, name := fname }]) ∧
        (navigateToFolder none fname s).breadcrumbPath = [rootCrumb] := by
  intro s fid fname
  refine ⟨?_, ?_, rfl⟩
  · intro hmem
    exact ⟨navigateUpdatePath_isPrefixOf fid fname _ hmem,
      navigateUpdatePath_getLast fid fname _,
      navigateUpdatePath_dropLast_ne fid fname _⟩
  · intro hmem
    exact navigateUpdatePath_of_not_mem fid fname _ hmem

/-- Witness for C2 at a concrete state: navigating to the folder id "a"
already present in the two-entry breadcrumb truncates to a prefix of the
old path ending at the entry with that id. -/
theorem navigate_breadcrumb_spec_witness :
    (navigateToFolder (some "a") "A" exState).breadcrumbPath <+: exState.breadcrumbPath ∧
      (((navigateToFolder (some "a") "A" exState).breadcrumbPath).getLast?).map Crumb.id =
        some (some "a") :=
  ⟨((navigate_breadcrumb_spec exState "a" "A").1 (by decide)).1,
    ((navigate_breadcrumb_spec exState "a" "A").1 (by decide)).2.1⟩

/- ---------------------------------------------------------------
   The breadcrumb/current-folder invariant (C6)
   --------------------------------------------------------------- -/

/-- The invariant of spec section 3: a non-empty breadcrumb path whose
last entry is the currently open folder. -/
def breadcrumbInv (s : State) : Prop :=
  s.breadcrumbPath ≠ [] ∧
    (s.breadcrumbPath.getLast?).map Crumb.id = some s.currentFolderId

lemma breadcrumbInv_initState (u : Option User) : breadcrumbInv (initState u) := by
  constructor <;> simp [initState, rootCrumb]

lemma breadcrumbInv_navigate (fid : Option String) (fname : String) (s : State) :
    breadcrumbInv (navigateToFolder fid fname s) := by
  cases fid with
  | none =>
    constructor <;> simp [navigateToFolder, navPathStep, rootCrumb]
  | some f =>
    exact ⟨navigateUpdatePath_ne_nil f fname s.breadcrumbPath,
      navigateUpdatePath_getLast f fname s.breadcrumbPath⟩

lemma breadcrumbInv_handleLogout (ok showT : Bool) (s : State) :
    breadcrumbInv (handleLogout ok showT s) := by
  constructor <;> simp [handleLogout, userCleanupEffect, rootCrumb]

lemma fetchItemsErr_path_current (status : Nat) (fid : Option String) (s : State) :
    ((fetchItemsErr status fid s).breadcrumbPath = s.breadcrumbPath ∧
        (fetchItemsErr status fid s).currentFolderId = s.currentFolderId) ∨
      ((fetchItemsErr status fid s).breadcrumbPath = [rootCrumb] ∧
        (fetchItemsErr status fid s).currentFolderId = none) := by
  unfold fetchItemsErr
  by_cases h404 : status = 404 ∧ fid ≠ none
  · right
    simp [h404, navigateToFolder, navPathStep]
  · by_cases h401 : status = 401
    · right
      simp [h404, h401, handleLogout, userCleanupEffect]
    · left
      simp [h404, h401]

lemma breadcrumbInv_step (s : State) (a : Action) (h : breadcrumbInv s) :
    breadcrumbInv (step s a) := by
  cases a with
  | navigate fid fname => exact breadcrumbInv_navigate fid fname s
  | logout ok showT => exact breadcrumbInv_handleLogout ok showT s
  | fetchOk folders files => exact ⟨h.1, h.2⟩
  | fetchErr status fid =>
    show breadcrumbInv (fetchItemsErr status fid s)
    rcases fetchItemsErr_path_current status fid s with ⟨hp, hc⟩ | ⟨hp, hc⟩
    · exact ⟨by rw [hp]; exact h.1, by rw [hp, hc]; exact h.2⟩
    · exact ⟨by rw [hp]; simp, by rw [hp, hc]; simp [rootCrumb]⟩

lemma breadcrumbInv_foldl (acts : List Action) :
    ∀ s : State, breadcrumbInv s → breadcrumbInv (acts.foldl step s) := by
  induction acts with
  | nil => intro s h; exact h
  | cons a rest ih => intro s h; exact ih (step s a) (breadcrumbInv_step s a h)

/-- C6: in every state reachable from the initial state by navigation,
logout and fetch transitions, the breadcrumb path is non-empty and the
id of its last entry is the current folder id. -/
theorem reachable_breadcrumb_invariant :
    ∀ (u : Option User) (acts : List Action),
      (run u acts).breadcrumbPath ≠ [] ∧
        ((run u acts).breadcrumbPath.getLast?).map Crumb.id =
          some (run u acts).currentFolderId := by
  intro u acts
  exact breadcrumbInv_foldl acts (initState u) (breadcrumbInv_initState u)

/-- C9: every breadcrumb path reachable from the root-only path by a
sequence of navigations has pairwise distinct entry ids. -/
theorem runNav_ids_pairwise_ne :
    ∀ navs : List (Option String × String),
      (runNav navs).Pairwise fun a b => a.id ≠ b.id := by
  have haux : ∀ (l : List (Option String × String)) (p : List Crumb),
      (p.Pairwise fun a b => a.id ≠ b.id) →
        (l.foldl navPathStep p).Pairwise fun a b => a.id ≠ b.id := by
    intro l
    induction l with
    | nil => intro p h; exact h
    | cons x rest ih => intro p h; exact ih (navPathStep p x) (navPathStep_pairwise p x h)
  intro navs
  exact haux navs [rootCrumb] (by simp)

/-- C4: logout always clears the local session state (the user becomes
null), whatever the outcome of the remote logout request. -/
theorem logout_clears_session :
    ∀ (remoteOk showToast : Bool) (s : State),
      (handleLogout remoteOk showToast s).user = none := by
  intro ok showT s
  simp [handleLogout, userCleanupEffect]

/-- C5: a fetch failing with HTTP status 401 leaves a state with no
session and an empty item list. -/
theorem fetch401_clears_session_and_items :
    ∀ (folderId : Option String) (s : State),
      (fetchItemsErr 401 folderId s).user = none ∧
        (fetchItemsErr 401 folderId s).items = [] := by
  intro fid s
  constructor <;> simp [fetchItemsErr, handleLogout, userCleanupEffect]

/-- C7: the DELETE request is dispatched only after the destructive-action
confirmation was accepted; a declined confirmation sends no request and
leaves the state unchanged. -/
theorem delete_requires_confirmation :
    ∀ (item : Item) (s : State) (confirmed : Bool),
      (confirmed = false → handleDelete item confirmed s = (none, s)) ∧
        (((handleDelete item confirmed s).1).isSome = true → confirmed = true) := by
  intro item s c
  constructor
  · rintro rfl
    cases hload : s.isLoading <;> simp [handleDelete, hload]
  · intro hsent
    cases c
    · exfalso
      cases hload : s.isLoading <;> simp [handleDelete, hload] at hsent
    · rfl

/-- Witness for C7 at a concrete input: with the confirmation declined,
no request is dispatched and the state is unchanged. -/
theorem delete_requires_confirmation_witness :
    handleDelete exItem false exState = (none, exState) :=
  (delete_requires_confirmation exItem exState false).1 rfl

/-- C1 at the failing input: with folder "a" open, the success path of a
file upload never re-invokes fetchItems, because line 268 reads the
unbound identifier `targetFolderIdnull` and the resulting ReferenceError
is swallowed by the catch block; the other three mutations all refetch
the folder that was open when they started. -/
theorem upload_success_does_not_refetch :
    (handleFileUploadSuccess exState).refetch = none ∧
      (createFolderSuccess exState).refetch = some (some "a") ∧
        (handleDeleteSuccess exItem exState).refetch = some (some "a") ∧
          (handleActualFileUpdateSuccess none exState).refetch = some (some "a") := by
  decide

/-- C8 counterexample: a fetch of the root folder (folderId null) that
fails with 404 produces no warning toast and no fallback navigation:
the handler only reacts to 404 when the failed fetch targeted a
non-root folder. -/
theorem fetch404_at_root_no_warning :
    "Folder not found, returning to root." ∉
      (fetchItemsErr 404 none (initState (some exUser))).toasts := by
  decide

/-- C8 (amended): a fetch of a non-root folder that fails with 404 warns
the user and navigates back to the root folder. -/
theorem fetch404_nonroot_falls_back_to_root :
    ∀ (fid : String) (s : State),
      "Folder not found, returning to root." ∈ (fetchItemsErr 404 (some fid) s).toasts ∧
        (fetchItemsErr 404 (some fid) s).currentFolderId = none ∧
          (fetchItemsErr 404 (some fid) s).breadcrumbPath = [rootCrumb] := by
  intro fid s
  refine ⟨?_, ?_, ?_⟩ <;>
    simp [fetchItemsErr, navigateToFolder, navPathStep]

end Drive
